import Mathlib

/-!
A verification development for the gear-detector backend.  The core of the
system (multi-source aggregation with timeout isolation, the query and photo
cache keys, the two-tier photo cache, and the sliding-window rate limiter) is
shallowly embedded: each Python function of the source is translated into an
executable Lean definition over explicit state, and the specification's
claims about them are settled as theorems.
-/

namespace GearDetector

/-- Model of an opaque JSON-style payload (Python `Dict`).  The code never
inspects payload contents beyond emptiness, so an association list of strings
suffices; `json.dumps`/`json.loads` round-tripping is modelled by storing the
payload structurally. -/
abbrev Dict := List (String × String)

/-- Embeds `ScraperResult` from `src/scrapers/base_scraper.py`: the
standardized outcome type every scraper produces.  Python's float
`confidence` is modelled as a rational. -/
structure ScraperResult where
  source_name : String
  success : Bool
  data : Dict
  error : Option String := none
  confidence : Rat := 0
  deriving Repr, DecidableEq

/-- One agent invocation's behaviour, as seen by the timeout guard: the
awaited `search` coroutine either returns a result, raises an exception
(carrying its message), or exceeds the deadline. -/
inductive SearchBehavior where
  | returns (r : ScraperResult)
  | raises (msg : String)
  | timesOut
  deriving Repr, DecidableEq

/-- Embeds `BaseScraper.search_with_timeout` from
`src/scrapers/base_scraper.py`: `asyncio.wait_for` around `self.search`,
with `except asyncio.TimeoutError` returning a failed result with error
`"Timeout"` and `except Exception` returning a failed result carrying the
exception's message.  The guard is total: no behaviour escapes as an
exception. -/
def search_with_timeout (sourceName : String) (b : SearchBehavior) : ScraperResult :=
  match b with
  | .returns r => r
  | .timesOut =>
      { source_name := sourceName, success := false, data := [],
        error := some "Timeout", confidence := 0 }
  | .raises e =>
      { source_name := sourceName, success := false, data := [],
        error := some e, confidence := 0 }

/-- One element of the list returned by
`asyncio.gather(*tasks, return_exceptions=True)`: either a task's result or
an exception object swallowed by `gather`. -/
inductive GatherItem where
  | result (r : ScraperResult)
  | exc (msg : String)
  deriving Repr, DecidableEq

/-- Embeds the filtering loop of `DataAggregator.aggregate`
(`src/services/aggregator.py`): keep exactly the items that are a
`ScraperResult` with `success` true; `ScraperResult`s with `success` false
and exception objects are only logged. -/
def collect_successful : List GatherItem → List ScraperResult
  | [] => []
  | .result r :: rest =>
      if r.success then r :: collect_successful rest else collect_successful rest
  | .exc _ :: rest => collect_successful rest

/-- Embeds `DataAggregator.aggregate` (`src/services/aggregator.py`): fan the
query out by applying `search_with_timeout` to every registered scraper
(here: a list of source names paired with their behaviour on this query),
gather all outcomes, and collect the successful ones. -/
def aggregate (agents : List (String × SearchBehavior)) : List ScraperResult :=
  collect_successful
    (agents.map (fun a => GatherItem.result (search_with_timeout a.1 a.2)))

theorem collect_successful_map_result (l : List ScraperResult) :
    collect_successful (l.map GatherItem.result) = l.filter (fun r => r.success) := by
  induction l with
  | nil => rfl
  | cons r rest ih =>
      by_cases h : r.success = true <;>
        simp [collect_successful, List.filter, ih, h]

/-- Claim C1: `aggregate` returns exactly the subset of guarded outcomes
whose success flag is true, without raising; with zero agents it returns the
empty list, and when every agent's guarded outcome fails it returns the
empty list rather than an error. -/
theorem C1_aggregate_returns_successful_subset
    (agents : List (String × SearchBehavior)) :
    aggregate agents
      = (agents.map (fun a => search_with_timeout a.1 a.2)).filter (fun r => r.success)
    ∧ aggregate [] = []
    ∧ ((∀ a ∈ agents, (search_with_timeout a.1 a.2).success = false) →
        aggregate agents = []) := by
  have key : aggregate agents
      = (agents.map (fun a => search_with_timeout a.1 a.2)).filter (fun r => r.success) := by
    unfold aggregate
    rw [← collect_successful_map_result]
    simp [List.map_map]
    rfl
  refine ⟨key, rfl, fun hfail => ?_⟩
  rw [key]
  rw [List.filter_eq_nil_iff]
  intro r hr
  rcases List.mem_map.mp hr with ⟨a, ha, rfl⟩
  simp [hfail a ha]

/-- Witness for C1 at a concrete agent list where every agent fails:
one crashes, one times out, one returns an explicit failure. -/
theorem C1_witness :
    aggregate
      [("equipboard", SearchBehavior.raises "boom"),
       ("reddit", SearchBehavior.timesOut),
       ("youtube", SearchBehavior.returns
          { source_name := "youtube", success := false, data := [],
            error := some "no hits", confidence := 0 })] = [] :=
  (C1_aggregate_returns_successful_subset _).2.2 (by decide)

/-- Counterexample for claim C2 as stated: on a deadline elapse the guard's
outcome carries the error string `"Timeout"`, not `"timeout"`. -/
theorem C2_counterexample :
    (search_with_timeout "equipboard" SearchBehavior.timesOut).error = some "Timeout"
    ∧ (some "Timeout" : Option String) ≠ some "timeout" := by
  constructor
  · rfl
  · decide

/-- Claim C2 (amended): the timeout guard never propagates an exception (it
is a total function into `ScraperResult`); a deadline elapse yields
`success = false`, empty payload, error `"Timeout"` (capitalized) and
confidence 0; a raised exception is caught and converted into a failed
outcome of the same shape carrying the exception's message. -/
theorem C2_guard_normalizes_failures (sourceName : String) (b : SearchBehavior) :
    (b = SearchBehavior.timesOut →
        search_with_timeout sourceName b =
          { source_name := sourceName, success := false, data := [],
            error := some "Timeout", confidence := 0 })
    ∧ (∀ msg, b = SearchBehavior.raises msg →
        search_with_timeout sourceName b =
          { source_name := sourceName, success := false, data := [],
            error := some msg, confidence := 0 })
    ∧ (∀ r, b = SearchBehavior.returns r → search_with_timeout sourceName b = r) := by
  refine ⟨fun h => ?_, fun msg h => ?_, fun r h => ?_⟩ <;> subst h <;> rfl

/-- Witness for C2 (amended) at the timing-out and the raising behaviour. -/
theorem C2_witness :
    search_with_timeout "reddit" SearchBehavior.timesOut =
      { source_name := "reddit", success := false, data := [],
        error := some "Timeout", confidence := 0 }
    ∧ search_with_timeout "reddit" (SearchBehavior.raises "socket closed") =
      { source_name := "reddit", success := false, data := [],
        error := some "socket closed", confidence := 0 } :=
  ⟨(C2_guard_normalizes_failures "reddit" SearchBehavior.timesOut).1 rfl,
   (C2_guard_normalizes_failures "reddit" (SearchBehavior.raises "socket closed")).2.1
     "socket closed" rfl⟩

/-- Model of Python's `str.lower()`: lower-case every character.  (Defined
directly over the character list so that it evaluates by kernel
reduction.) -/
def lower (s : String) : String := ⟨s.data.map Char.toLower⟩

/-- Model of the f-string fragment `{year or ''}` in `generate_search_hash`:
Python renders a missing year — and, since `0` is falsy, the year `0` — as
the empty string, and any other integer by its decimal representation. -/
def year_str : Option Int → String
  | none => ""
  | some y => if y = 0 then "" else toString y

/-- The pre-hash encoding built by `generate_search_hash`
(`src/api/routes/search.py`): the Python f-string
`f"{artist.lower()}:{song.lower()}:{year or ''}"`. -/
def query_string (artist song : String) (year : Option Int) : String :=
  lower artist ++ ":" ++ lower song ++ ":" ++ year_str year

/-- Embeds `generate_search_hash` (`src/api/routes/search.py`): the MD5 hex
digest of the pre-hash encoding.  The digest function itself is a library
call, so it is taken as a parameter; every property proved below holds for
every choice of digest (and the refutations are stated at the pre-hash
level, where the code's behaviour is fully determined). -/
def generate_search_hash (md5 : String → String) (artist song : String)
    (year : Option Int) : String :=
  md5 (query_string artist song year)

theorem lower_append (a b : String) : lower (a ++ b) = lower a ++ lower b := by
  apply String.ext
  simp [lower, String.data_append]

theorem query_string_data (artist song : String) (year : Option Int) :
    (query_string artist song year).data
      = (lower artist).data ++ ':' :: ((lower song).data ++ ':' :: (year_str year).data) := by
  simp [query_string, String.data_append]

/-- Splitting lemma for separator-joined character lists: when neither
prefix contains the separator, the encoding determines both parts. -/
theorem sep_append_inj {c : Char} :
    ∀ {xs₁ xs₂ ys₁ ys₂ : List Char}, c ∉ xs₁ → c ∉ xs₂ →
      xs₁ ++ c :: ys₁ = xs₂ ++ c :: ys₂ → xs₁ = xs₂ ∧ ys₁ = ys₂ := by
  intro xs₁
  induction xs₁ with
  | nil =>
      intro xs₂ ys₁ ys₂ _ h₂ h
      cases xs₂ with
      | nil => simpa using h
      | cons x t =>
          exfalso
          have hx : c = x := by simpa using congrArg (fun l => l.head?) h
          exact h₂ (hx ▸ List.mem_cons_self x t)
  | cons x t ih =>
      intro xs₂ ys₁ ys₂ h₁ h₂ h
      cases xs₂ with
      | nil =>
          exfalso
          have hx : x = c := by simpa using congrArg (fun l => l.head?) h
          exact h₁ (hx ▸ List.mem_cons_self x t)
      | cons y u =>
          have hxy : x = y := by simpa using congrArg (fun l => l.head?) h
          have ht : t ++ c :: ys₁ = u ++ c :: ys₂ := by
            simpa using congrArg List.tail h
          have h₁' : c ∉ t := fun hc => h₁ (List.mem_cons_of_mem x hc)
          have h₂' : c ∉ u := fun hc => h₂ (List.mem_cons_of_mem y hc)
          rcases ih h₁' h₂' ht with ⟨rfl, rfl⟩
          exact ⟨by rw [hxy], rfl⟩

/-- Counterexample for claim C3 as stated: the code lower-cases but never
trims, so queries differing only in leading/trailing whitespace produce
different pre-hash encodings, hence different cache keys (witnessed here by
hashing with the identity digest). -/
theorem C3_counterexample :
    query_string " artist " "song" none ≠ query_string "artist" "song" none
    ∧ generate_search_hash id " artist " "song" none
        ≠ generate_search_hash id "artist" "song" none := by
  constructor <;> decide

/-- Claim C3 (amended): `generate_search_hash` is a deterministic pure
function that lower-cases each text field before hashing, so queries whose
fields differ only in letter case produce equal cache keys; it does not
trim, and prepending whitespace to a field always changes the pre-hash
encoding (hence the key, up to digest collision). -/
theorem C3_keyFor_case_insensitive_but_untrimmed
    (md5 : String → String) (a a' s s' : String) (y : Option Int)
    (ha : lower a = lower a') (hs : lower s = lower s') :
    generate_search_hash md5 a s y = generate_search_hash md5 a' s' y
    ∧ ∀ b t : String, ∀ z : Option Int,
        query_string (" " ++ b) t z ≠ query_string b t z := by
  constructor
  · simp [generate_search_hash, query_string, ha, hs]
  · intro b t z h
    have hd := congrArg String.data h
    rw [query_string_data, query_string_data] at hd
    have h1 : (lower (" " ++ b)).data.length = (lower b).data.length + 1 := by
      rw [lower_append, String.data_append, List.length_append]
      have hsp : (lower " ").data.length = 1 := by decide
      omega
    have h2 := congrArg List.length hd
    simp only [List.length_append, List.length_cons] at h2
    omega

/-- Witness for C3 (amended) at the spec's own example: `("Artist", "Song")`
and `("artist", "song")` share a key. -/
theorem C3_witness :
    generate_search_hash id "Artist" "Song" none
      = generate_search_hash id "artist" "song" none
    ∧ query_string (" " ++ "artist") "song" none ≠ query_string "artist" "song" none :=
  ⟨(C3_keyFor_case_insensitive_but_untrimmed id "Artist" "artist" "Song" "song" none
      (by decide) (by decide)).1,
   (C3_keyFor_case_insensitive_but_untrimmed id "x" "x" "x" "x" none rfl rfl).2
     "artist" "song" none⟩

/-- Counterexample for claim C4 as stated: the separator `:` also occurs in
field values, so the distinct tuples `("a:b", "c")` and `("a", "b:c")`
produce the identical pre-hash encoding `"a:b:c:"` — and therefore the same
cache key under every digest (witnessed with the identity digest). -/
theorem C4_counterexample :
    query_string "a:b" "c" none = query_string "a" "b:c" none
    ∧ generate_search_hash id "a:b" "c" none = generate_search_hash id "a" "b:c" none
    ∧ (("a:b", "c") : String × String) ≠ ("a", "b:c") := by
  refine ⟨by decide, by decide, by decide⟩

/-- Claim C4 (amended): the `:` separator is unambiguous only for fields
that contain no `:` themselves; for every two queries whose lower-cased
artist and song contain no colon, equal pre-hash encodings force equal
normalized fields (equal lower-cased artist, equal lower-cased song, and
equal rendered year components) — queries with colons in their fields can
collide, as `C4_counterexample` shows. -/
theorem C4_query_string_injective_on_colon_free_fields
    (a₁ a₂ s₁ s₂ : String) (y₁ y₂ : Option Int)
    (ha₁ : ':' ∉ (lower a₁).data) (ha₂ : ':' ∉ (lower a₂).data)
    (hs₁ : ':' ∉ (lower s₁).data) (hs₂ : ':' ∉ (lower s₂).data)
    (h : query_string a₁ s₁ y₁ = query_string a₂ s₂ y₂) :
    lower a₁ = lower a₂ ∧ lower s₁ = lower s₂ ∧ year_str y₁ = year_str y₂ := by
  have hd := congrArg String.data h
  rw [query_string_data, query_string_data] at hd
  rcases sep_append_inj ha₁ ha₂ hd with ⟨hA, hrest⟩
  rcases sep_append_inj hs₁ hs₂ hrest with ⟨hS, hY⟩
  exact ⟨String.ext hA, String.ext hS, String.ext hY⟩

/-- Witness for C4 (amended) at a concrete colon-free pair of queries. -/
theorem C4_witness :
    lower "Hendrix" = lower "hendrix" ∧ lower "Purple Haze" = lower "purple haze"
    ∧ year_str (some 1967) = year_str (some 1967) :=
  C4_query_string_injective_on_colon_free_fields "Hendrix" "hendrix"
    "Purple Haze" "purple haze" (some 1967) (some 1967)
    (by decide) (by decide) (by decide) (by decide) (by decide)

/-- One key of the modelled Redis keyspace: a value together with its
absolute expiry instant (seconds).  Redis expiry semantics: the key is
visible while `now < expires_at` and treated as absent afterwards. -/
structure RedisEntry where
  key : String
  value : Dict
  expires_at : Int
  deriving Repr, DecidableEq

/-- Model of Redis `GET` with lazy expiry: the key's value if a live entry
exists. -/
def redis_get (store : List RedisEntry) (key : String) (now : Int) : Option Dict :=
  (store.find? (fun e => e.key == key && decide (now < e.expires_at))).map
    (fun e => e.value)

/-- Model of Redis `DEL` applied to one key: drop every entry for it. -/
def redis_del (store : List RedisEntry) (key : String) : List RedisEntry :=
  store.filter (fun e => e.key != key)

/-- Whether a live (unexpired) entry for the key exists; Redis `DEL` reports
the number of such keys actually removed. -/
def redis_live (store : List RedisEntry) (key : String) (now : Int) : Bool :=
  store.any (fun e => e.key == key && decide (now < e.expires_at))

/-- Model of Redis `SETEX`: overwrite the key with a fresh value expiring
`ttl_seconds` from now. -/
def redis_setex (store : List RedisEntry) (key : String) (ttl_seconds : Int)
    (value : Dict) (now : Int) : List RedisEntry :=
  { key := key, value := value, expires_at := now + ttl_seconds } :: redis_del store key

/-- Embeds the state of `CacheManager` (`src/services/cache_manager.py`):
the `enabled` flag (true on construction), whether `redis_client` is set
(`connected`), and the modelled Redis keyspace. -/
structure CacheManager where
  enabled : Bool
  connected : Bool
  store : List RedisEntry
  deriving Repr, DecidableEq

/-- Outcome of the startup connection attempt in `CacheManager.connect`. -/
inductive ConnectOutcome where
  | success
  | failure
  deriving Repr, DecidableEq

/-- Embeds `CacheManager.connect`: on success the client is set; on any
connection exception the tier is marked disabled (`self.enabled = False`). -/
def CacheManager.connect (cm : CacheManager) : ConnectOutcome → CacheManager
  | .success => { cm with connected := true }
  | .failure => { cm with enabled := false }

/-- The Redis key used by the photo cache: `f"photo:{image_hash}"`. -/
def photo_key (image_hash : String) : String := "photo:" ++ image_hash

/-- Embeds `CacheManager.get_photo_result`: `None` when the tier is disabled
or unconnected, otherwise a Redis `GET` of the photo key (the stored JSON is
parsed back; serialization is modelled structurally). -/
def CacheManager.get_photo_result (cm : CacheManager) (image_hash : String)
    (now : Int) : Option Dict :=
  if !cm.enabled || !cm.connected then none
  else redis_get cm.store (photo_key image_hash) now

/-- `timedelta(days := 1)` in seconds. -/
def seconds_per_day : Int := 86400

/-- Embeds `CacheManager.set_photo_result`: `False` (and no write) when the
tier is disabled or unconnected, otherwise `SETEX` with a
`timedelta(days=ttl_days)` expiry and `True`. -/
def CacheManager.set_photo_result (cm : CacheManager) (image_hash : String)
    (gear_data : Dict) (ttl_days : Int) (now : Int) : Bool × CacheManager :=
  if !cm.enabled || !cm.connected then (false, cm)
  else
    (true,
     { cm with
        store := redis_setex cm.store (photo_key image_hash)
          (ttl_days * seconds_per_day) gear_data now })

/-- Embeds `CacheManager.delete_photo_result`: `False` when the tier is
disabled or unconnected, otherwise a Redis `DEL` of the photo key, returning
`deleted > 0` — whether a live key was actually removed. -/
def CacheManager.delete_photo_result (cm : CacheManager) (image_hash : String)
    (now : Int) : Bool × CacheManager :=
  if !cm.enabled || !cm.connected then (false, cm)
  else
    (redis_live cm.store (photo_key image_hash) now,
     { cm with store := redis_del cm.store (photo_key image_hash) })

/-- Embeds the state of `CacheService` (`src/services/cache_service.py`):
whether `redis_client` was initialized, plus its keyspace. -/
structure CacheService where
  initialized : Bool
  store : List RedisEntry
  deriving Repr, DecidableEq

/-- Embeds `CacheService.delete`: `False` when no client, otherwise performs
the `DEL` and returns `True` unconditionally — the code ignores the deletion
count. -/
def CacheService.delete (cs : CacheService) (key : String) : Bool × CacheService :=
  if !cs.initialized then (false, cs)
  else (true, { cs with store := redis_del cs.store key })

/-- One row of the durable tier: a `photo_searches` record
(`src/database/models.py`) as used by the photo-search route. -/
structure PhotoRow where
  image_hash : String
  gear : Dict
  expires_at : Int
  deriving Repr, DecidableEq

/-- The two-tier state visible to `search_gear_by_photo`
(`src/api/routes/search.py`): the Redis fast tier behind `cache_manager` and
the database's `photo_searches` durable tier. -/
structure PhotoSearchState where
  redis : CacheManager
  db : List PhotoRow
  deriving Repr, DecidableEq

/-- Which tier served a photo lookup (or neither). -/
inductive PhotoLookupHit where
  | fromFast (d : Dict)
  | fromDurable (d : Dict)
  | miss
  deriving Repr, DecidableEq

/-- Embeds the cache-read path of `search_gear_by_photo`
(`src/api/routes/search.py`): check Redis first via
`cache_manager.get_photo_result`; on miss, query `photo_searches` for an
unexpired row (`expires_at > now`) and return it directly; otherwise report
a miss (the route then runs the vision analysis).  Neither hit branch
modifies either tier. -/
def photo_cache_lookup (st : PhotoSearchState) (image_hash : String) (now : Int) :
    PhotoLookupHit × PhotoSearchState :=
  match st.redis.get_photo_result image_hash now with
  | some d => (.fromFast d, st)
  | none =>
      match st.db.find? (fun r => r.image_hash == image_hash && decide (now < r.expires_at)) with
      | some row => (.fromDurable row.gear, st)
      | none => (.miss, st)

/-- The cache invalidation the code offers for a photo entry, lifted to the
two-tier state: `CacheManager.delete_photo_result` on the fast tier — no
code path deletes the corresponding `photo_searches` row. -/
def photo_cache_invalidate (st : PhotoSearchState) (image_hash : String)
    (now : Int) : Bool × PhotoSearchState :=
  ((st.redis.delete_photo_result image_hash now).1,
   { st with redis := (st.redis.delete_photo_result image_hash now).2 })

theorem redis_get_del (store : List RedisEntry) (key : String) (now : Int) :
    redis_get (redis_del store key) key now = none := by
  unfold redis_get redis_del
  have hnone : (store.filter (fun e => e.key != key)).find?
      (fun e => e.key == key && decide (now < e.expires_at)) = none := by
    rw [List.find?_eq_none]
    intro e he h
    have hne := (List.mem_filter.mp he).2
    simp at hne h
    exact hne h.1
  rw [hnone]
  rfl

theorem redis_get_setex_live (store : List RedisEntry) (key : String)
    (ttl : Int) (v : Dict) (now t : Int) (h : t < now + ttl) :
    redis_get (redis_setex store key ttl v now) key t = some v := by
  unfold redis_get redis_setex
  rw [List.find?_cons_of_pos _ (by simp [h])]
  rfl

theorem redis_get_setex_expired (store : List RedisEntry) (key : String)
    (ttl : Int) (v : Dict) (now t : Int) (h : now + ttl ≤ t) :
    redis_get (redis_setex store key ttl v now) key t = none := by
  have hdel := redis_get_del store key t
  unfold redis_get at hdel ⊢
  unfold redis_setex redis_del
  rw [List.find?_cons_of_neg _ (by simp; omega)]
  unfold redis_del at hdel
  exact hdel

theorem redis_live_iff_get (store : List RedisEntry) (key : String) (now : Int) :
    redis_live store key now = true ↔ redis_get store key now ≠ none := by
  unfold redis_live redis_get
  simp only [List.any_eq_true, Ne, Option.map_eq_none']
  constructor
  · rintro ⟨x, hx, hpx⟩ hnone
    rw [List.find?_eq_none] at hnone
    exact hnone x hx hpx
  · intro hne
    exact List.find?_isSome.mp (Option.ne_none_iff_isSome.mp hne)

/-- Concrete two-tier state for the photo-cache refutations: the fast tier
is connected but empty, the durable tier holds one unexpired row. -/
def durable_only_state : PhotoSearchState :=
  { redis := { enabled := true, connected := true, store := [] },
    db := [{ image_hash := "h1", gear := [("guitars", "stratocaster")], expires_at := 100 }] }

/-- Counterexample for claim C5 as stated: on a fast-tier miss with a
durable-tier hit the route returns the durable entry but performs no
backfill — the state is unchanged, the fast tier still misses, and a
subsequent lookup is again served by the durable tier rather than the fast
tier. -/
theorem C5_counterexample :
    (photo_cache_lookup durable_only_state "h1" 0).1
      = PhotoLookupHit.fromDurable [("guitars", "stratocaster")]
    ∧ (photo_cache_lookup durable_only_state "h1" 0).2 = durable_only_state
    ∧ (photo_cache_lookup durable_only_state "h1" 0).2.redis.get_photo_result "h1" 0 = none
    ∧ (photo_cache_lookup ((photo_cache_lookup durable_only_state "h1" 0).2) "h1" 0).1
        = PhotoLookupHit.fromDurable [("guitars", "stratocaster")] := by
  refine ⟨by decide, by decide, by decide, by decide⟩

/-- Claim C5 (amended): for every key present and unexpired in the durable
tier but absent from the fast tier, the photo lookup returns the
durable-tier entry but does not backfill the fast tier: the two-tier state
is returned unchanged, and a subsequent lookup on the same key consults the
durable tier again. -/
theorem C5_durable_hit_returns_without_backfill
    (st : PhotoSearchState) (image_hash : String) (now : Int) (row : PhotoRow)
    (hfast : st.redis.get_photo_result image_hash now = none)
    (hdb : st.db.find? (fun r => r.image_hash == image_hash && decide (now < r.expires_at))
        = some row) :
    photo_cache_lookup st image_hash now = (PhotoLookupHit.fromDurable row.gear, st)
    ∧ (photo_cache_lookup (photo_cache_lookup st image_hash now).2 image_hash now).1
        = PhotoLookupHit.fromDurable row.gear := by
  have h1 : photo_cache_lookup st image_hash now = (.fromDurable row.gear, st) := by
    unfold photo_cache_lookup
    rw [hfast, hdb]
  exact ⟨h1, by rw [h1, h1]⟩

/-- Witness for C5 (amended) at the concrete durable-only state. -/
theorem C5_witness :
    photo_cache_lookup durable_only_state "h1" 0
      = (PhotoLookupHit.fromDurable [("guitars", "stratocaster")], durable_only_state) :=
  (C5_durable_hit_returns_without_backfill durable_only_state "h1" 0
    { image_hash := "h1", gear := [("guitars", "stratocaster")], expires_at := 100 }
    (by decide) (by decide)).1

/-- Claim C6: for an enabled, connected cache, `set_photo_result` followed
by `get_photo_result` on the same key returns the stored payload; the
entry's expiry is exactly `now + ttl_days` days (the payload is returned at
every instant before it), and from the expiry instant on the key reads as
absent. -/
theorem C6_cache_round_trip (cm : CacheManager) (image_hash : String) (gear : Dict)
    (ttl_days now : Int)
    (hen : cm.enabled = true) (hcon : cm.connected = true) (httl : 0 < ttl_days) :
    (cm.set_photo_result image_hash gear ttl_days now).1 = true
    ∧ (cm.set_photo_result image_hash gear ttl_days now).2.get_photo_result image_hash now
        = some gear
    ∧ (∀ t, t < now + ttl_days * seconds_per_day →
        (cm.set_photo_result image_hash gear ttl_days now).2.get_photo_result image_hash t
          = some gear)
    ∧ (∀ t, now + ttl_days * seconds_per_day ≤ t →
        (cm.set_photo_result image_hash gear ttl_days now).2.get_photo_result image_hash t
          = none) := by
  have hnow : now < now + ttl_days * seconds_per_day := by
    have : 0 < ttl_days * seconds_per_day := by
      have h86400 : (0 : Int) < seconds_per_day := by decide
      positivity
    omega
  unfold CacheManager.set_photo_result CacheManager.get_photo_result
  simp only [hen, hcon, Bool.not_true, Bool.or_self, Bool.false_eq_true, if_false,
    Bool.false_or]
  refine ⟨trivial, ?_, ?_, ?_⟩
  · exact redis_get_setex_live _ _ _ _ _ _ hnow
  · intro t ht
    exact redis_get_setex_live _ _ _ _ _ _ ht
  · intro t ht
    exact redis_get_setex_expired _ _ _ _ _ _ ht

/-- Witness for C6 at a concrete empty cache, hash and payload. -/
theorem C6_witness :
    (CacheManager.set_photo_result ⟨true, true, []⟩ "h1" [("amps", "ac30")] 90 0).1 = true
    ∧ (CacheManager.set_photo_result ⟨true, true, []⟩ "h1" [("amps", "ac30")] 90 0).2.get_photo_result
        "h1" 0 = some [("amps", "ac30")] :=
  ⟨(C6_cache_round_trip ⟨true, true, []⟩ "h1" [("amps", "ac30")] 90 0 rfl rfl (by decide)).1,
   (C6_cache_round_trip ⟨true, true, []⟩ "h1" [("amps", "ac30")] 90 0 rfl rfl (by decide)).2.1⟩

/-- Concrete two-tier state with the same key live in both tiers. -/
def both_tiers_state : PhotoSearchState :=
  { redis := { enabled := true, connected := true,
               store := [{ key := "photo:h1", value := [("pedals", "ts9")], expires_at := 100 }] },
    db := [{ image_hash := "h1", gear := [("pedals", "ts9")], expires_at := 100 }] }

/-- Counterexample for claim C7 as stated: with the key live in both tiers,
the code's invalidation removes it from the fast tier only — it reports
`true` while the durable row is still present; and `CacheService.delete`
returns `true` on an initialized client even when the key was absent and
nothing was removed. -/
theorem C7_counterexample :
    (photo_cache_invalidate both_tiers_state "h1" 0).1 = true
    ∧ (photo_cache_invalidate both_tiers_state "h1" 0).2.db
        = [{ image_hash := "h1", gear := [("pedals", "ts9")], expires_at := 100 }]
    ∧ (CacheService.delete ⟨true, []⟩ "photo:h1").1 = true
    ∧ (CacheService.delete ⟨true, []⟩ "photo:h1").2 = ⟨true, []⟩ := by
  refine ⟨by decide, by decide, by decide, by decide⟩

/-- Claim C7 (amended): `delete_photo_result` removes the entry from the
fast tier only, returning `true` iff a live fast-tier entry existed (so
`false` when the key was absent there), and afterwards the fast tier reads
the key as absent; the durable tier is never touched by the invalidation;
`CacheService.delete` on an initialized client returns `true` regardless of
whether anything was removed. -/
theorem C7_invalidate_fast_tier_only (cm : CacheManager) (image_hash : String) (now : Int)
    (hen : cm.enabled = true) (hcon : cm.connected = true) :
    ((cm.delete_photo_result image_hash now).1 = true
      ↔ cm.get_photo_result image_hash now ≠ none)
    ∧ (∀ t, (cm.delete_photo_result image_hash now).2.get_photo_result image_hash t = none)
    ∧ (∀ st : PhotoSearchState, (photo_cache_invalidate st image_hash now).2.db = st.db)
    ∧ (∀ (cs : CacheService) (k : String), cs.initialized = true → (cs.delete k).1 = true) := by
  unfold CacheManager.delete_photo_result CacheManager.get_photo_result
  simp only [hen, hcon, Bool.not_true, Bool.or_self, Bool.false_eq_true, if_false,
    Bool.false_or]
  refine ⟨redis_live_iff_get _ _ _, ?_, ?_, ?_⟩
  · intro t
    exact redis_get_del _ _ _
  · intro st
    rfl
  · intro cs k hcs
    unfold CacheService.delete
    simp [hcs]

/-- Witness for C7 (amended): deleting an absent key from a connected,
empty fast tier reports `false`. -/
theorem C7_witness :
    ((CacheManager.delete_photo_result ⟨true, true, []⟩ "h1" 0).1 = true
      ↔ CacheManager.get_photo_result ⟨true, true, []⟩ "h1" 0 ≠ none)
    ∧ (CacheService.delete ⟨true, []⟩ "k").1 = true :=
  ⟨(C7_invalidate_fast_tier_only ⟨true, true, []⟩ "h1" 0 rfl rfl).1,
   (C7_invalidate_fast_tier_only ⟨true, true, []⟩ "h1" 0 rfl rfl).2.2.2 ⟨true, []⟩ "k" rfl⟩

/-- Claim C9: a fast tier whose startup connection fails is marked disabled,
and thereafter every operation on it is a raising-free no-op: get returns
`none`, put returns `false`, and invalidation returns `false`, each leaving
the state unchanged, for every key, payload, TTL and instant. -/
theorem C9_failed_connect_disables_all_ops (cm : CacheManager) (image_hash : String)
    (gear : Dict) (ttl_days now t : Int) :
    (cm.connect ConnectOutcome.failure).enabled = false
    ∧ (cm.connect ConnectOutcome.failure).get_photo_result image_hash t = none
    ∧ (cm.connect ConnectOutcome.failure).set_photo_result image_hash gear ttl_days now
        = (false, cm.connect ConnectOutcome.failure)
    ∧ (cm.connect ConnectOutcome.failure).delete_photo_result image_hash now
        = (false, cm.connect ConnectOutcome.failure) := by
  refine ⟨?_, ?_, ?_, ?_⟩ <;>
    simp [CacheManager.connect, CacheManager.get_photo_result,
      CacheManager.set_photo_result, CacheManager.delete_photo_result]

/-- Embeds FastAPI's `HTTPException` as raised by the rate limiter. -/
structure HTTPExc where
  status_code : Nat
  detail : String
  deriving Repr, DecidableEq

/-- Embeds the state of `PhotoSearchRateLimiter`
(`src/middleware/rate_limiter.py`): the configured limits and the
`IP -> list of timestamps` map (an association list; timestamps in
seconds). -/
structure RateLimiter where
  max_requests : Nat
  window_seconds : Int
  requests : List (String × List Int)
  deriving Repr, DecidableEq

/-- Reading `self.requests[client_ip]` after the `if client_ip not in
self.requests: self.requests[client_ip] = []` guard: the stored history, or
empty for a new identity. -/
def lookup_requests (l : List (String × List Int)) (ip : String) : List Int :=
  ((l.find? (fun p => p.1 == ip)).map (fun p => p.2)).getD []

/-- Writing `self.requests[client_ip] = ts`: replace the identity's entry,
or add one. -/
def set_requests : List (String × List Int) → String → List Int → List (String × List Int)
  | [], ip, ts => [(ip, ts)]
  | p :: rest, ip, ts =>
      if p.1 == ip then (ip, ts) :: rest else p :: set_requests rest ip ts

/-- Embeds `PhotoSearchRateLimiter.check_rate_limit`
(`src/middleware/rate_limiter.py`): prune the identity's timestamps to
those with `now - ts < window_seconds`; if at least `max_requests` remain,
store the pruned list and raise HTTP 429 (modelled as `Except.error`);
otherwise record `now` and admit with `True`. -/
def check_rate_limit (rl : RateLimiter) (client_ip : String) (now : Int) :
    Except HTTPExc Bool × RateLimiter :=
  let pruned := (lookup_requests rl.requests client_ip).filter
    (fun ts => decide (now - ts < rl.window_seconds))
  if rl.max_requests ≤ pruned.length then
    (Except.error
      { status_code := 429,
        detail := "Rate limit exceeded. Maximum " ++ toString rl.max_requests
          ++ " photo searches per " ++ toString rl.window_seconds ++ " seconds." },
     { rl with requests := set_requests rl.requests client_ip pruned })
  else
    (Except.ok true,
     { rl with requests := set_requests rl.requests client_ip (pruned ++ [now]) })

/-- Embeds the module-level `photo_rate_limiter` instance: 10 photo
searches per 60 seconds. -/
def photo_rate_limiter : RateLimiter :=
  { max_requests := 10, window_seconds := 60, requests := [] }

theorem find?_set_requests (l : List (String × List Int)) (ip : String) (ts : List Int) :
    (set_requests l ip ts).find? (fun p => p.1 == ip) = some (ip, ts) := by
  induction l with
  | nil =>
      unfold set_requests
      rw [List.find?_cons_of_pos _ (by simp)]
  | cons p rest ih =>
      unfold set_requests
      by_cases h : (p.1 == ip) = true
      · rw [if_pos h, List.find?_cons_of_pos _ (by simp)]
      · rw [if_neg h, List.find?_cons_of_neg _ (by simpa using h)]
        exact ih

theorem lookup_set_requests (l : List (String × List Int)) (ip : String) (ts : List Int) :
    lookup_requests (set_requests l ip ts) ip = ts := by
  unfold lookup_requests
  rw [find?_set_requests]
  rfl

theorem lookup_requests_single (ip : String) (h : List Int) :
    lookup_requests [(ip, h)] ip = h := by
  unfold lookup_requests
  rw [List.find?_cons_of_pos _ (by simp)]
  rfl

/-- Fresh-start call sequence: the state of `photo_rate_limiter` after `k`
calls for the same identity, all at instant `t`. -/
def repeat_calls (ip : String) (t : Int) : Nat → RateLimiter
  | 0 => photo_rate_limiter
  | n + 1 => (check_rate_limit (repeat_calls ip t n) ip t).2

theorem repeat_calls_requests (ip : String) (t : Int) :
    ∀ k, k ≤ 10 →
      repeat_calls ip t k
        = { max_requests := 10, window_seconds := 60,
            requests := if k = 0 then [] else [(ip, List.replicate k t)] } := by
  intro k
  induction k with
  | zero => intro _; rfl
  | succ n ih =>
      intro hk
      have hn : n ≤ 10 := by omega
      show (check_rate_limit (repeat_calls ip t n) ip t).2 = _
      rw [ih hn]
      unfold check_rate_limit
      rcases Nat.eq_zero_or_pos n with h0 | h0
      · subst h0
        simp [lookup_requests, set_requests]
      · have hne : ¬n = 0 := by omega
        simp only [hne, if_false, lookup_requests_single, List.filter_replicate,
          decide_eq_true_eq]
        have hkeep : t - t < (60 : Int) := by omega
        simp only [if_pos hkeep, List.length_replicate]
        have hlt : ¬(10 ≤ n) := by omega
        simp only [if_neg hlt]
        simp [set_requests, ← List.replicate_succ']

/-- Claim C8: for the module-level limiter (`max_requests = 10`,
`window_seconds = 60`) and any single client identity: each of the first 10
calls within the window admits, recording its instant; the 11th call within
the window is denied with HTTP 429; and once every recorded instant is at
least 60 seconds old, a new call admits again. -/
theorem C8_sliding_window_admits_and_denies (ip : String) (t : Int) :
    photo_rate_limiter.max_requests = 10
    ∧ photo_rate_limiter.window_seconds = 60
    ∧ (∀ k, k < 10 → (check_rate_limit (repeat_calls ip t k) ip t).1 = Except.ok true)
    ∧ (check_rate_limit (repeat_calls ip t 10) ip t).1
        = Except.error
            { status_code := 429,
              detail := "Rate limit exceeded. Maximum 10 photo searches per 60 seconds." }
    ∧ (∀ u, 60 ≤ u - t → (check_rate_limit (repeat_calls ip t 10) ip u).1 = Except.ok true) := by
  refine ⟨rfl, rfl, ?_, ?_, ?_⟩
  · intro k hk
    rw [repeat_calls_requests ip t k (by omega)]
    unfold check_rate_limit
    rcases Nat.eq_zero_or_pos k with h0 | h0
    · subst h0
      simp [lookup_requests]
    · have hne : ¬k = 0 := by omega
      simp only [hne, if_false, lookup_requests_single, List.filter_replicate,
        decide_eq_true_eq]
      have hkeep : t - t < (60 : Int) := by omega
      simp only [if_pos hkeep, List.length_replicate]
      have hlt : ¬(10 ≤ k) := by omega
      simp only [if_neg hlt]
  · rw [repeat_calls_requests ip t 10 (by omega)]
    unfold check_rate_limit
    simp [lookup_requests_single, List.filter_replicate, show t - t < (60 : Int) by omega]
    rfl
  · intro u hu
    rw [repeat_calls_requests ip t 10 (by omega)]
    unfold check_rate_limit
    simp [lookup_requests_single, List.filter_replicate, show ¬(u - t < (60 : Int)) by omega]

/-- Witness for C8 at a concrete identity and instants: the 10th call at
`t = 0` admits, the 11th is denied with status 429, and a call at `t = 60`
admits again. -/
theorem C8_witness :
    (check_rate_limit (repeat_calls "203.0.113.7" 0 9) "203.0.113.7" 0).1 = Except.ok true
    ∧ (check_rate_limit (repeat_calls "203.0.113.7" 0 10) "203.0.113.7" 0).1
        = Except.error
            { status_code := 429,
              detail := "Rate limit exceeded. Maximum 10 photo searches per 60 seconds." }
    ∧ (check_rate_limit (repeat_calls "203.0.113.7" 0 10) "203.0.113.7" 60).1
        = Except.ok true :=
  ⟨(C8_sliding_window_admits_and_denies "203.0.113.7" 0).2.2.1 9 (by omega),
   (C8_sliding_window_admits_and_denies "203.0.113.7" 0).2.2.2.1,
   (C8_sliding_window_admits_and_denies "203.0.113.7" 0).2.2.2.2 60 (by omega)⟩

/-- Claim C10: a denied check consumes no quota: when the identity's
in-window request count already reaches `max_requests`, `check_rate_limit`
denies with HTTP 429 and stores exactly the pruned in-window timestamps —
no new instant is recorded, and every other identity's history is left
untouched. -/
theorem C10_denied_check_keeps_window (rl : RateLimiter) (ip : String) (now : Int)
    (hfull : rl.max_requests ≤
      ((lookup_requests rl.requests ip).filter
        (fun ts => decide (now - ts < rl.window_seconds))).length) :
    (check_rate_limit rl ip now).1
      = Except.error
          { status_code := 429,
            detail := "Rate limit exceeded. Maximum " ++ toString rl.max_requests
              ++ " photo searches per " ++ toString rl.window_seconds ++ " seconds." }
    ∧ lookup_requests (check_rate_limit rl ip now).2.requests ip
        = (lookup_requests rl.requests ip).filter
            (fun ts => decide (now - ts < rl.window_seconds)) := by
  unfold check_rate_limit
  simp only [if_pos hfull]
  exact ⟨trivial, lookup_set_requests _ _ _⟩

/-- Witness for C10: an identity with ten in-window instants is denied and
its window is stored unchanged. -/
theorem C10_witness :
    (check_rate_limit
        { max_requests := 10, window_seconds := 60,
          requests := [("203.0.113.7", List.replicate 10 (0 : Int))] }
        "203.0.113.7" 5).1
      = Except.error
          { status_code := 429,
            detail := "Rate limit exceeded. Maximum " ++ toString (10 : Nat)
              ++ " photo searches per " ++ toString (60 : Int) ++ " seconds." }
    ∧ lookup_requests
        (check_rate_limit
          { max_requests := 10, window_seconds := 60,
            requests := [("203.0.113.7", List.replicate 10 (0 : Int))] }
          "203.0.113.7" 5).2.requests "203.0.113.7"
        = (lookup_requests [("203.0.113.7", List.replicate 10 (0 : Int))] "203.0.113.7").filter
            (fun ts => decide ((5 : Int) - ts < 60)) :=
  C10_denied_check_keeps_window
    { max_requests := 10, window_seconds := 60,
      requests := [("203.0.113.7", List.replicate 10 (0 : Int))] }
    "203.0.113.7" 5 (by decide)

end GearDetector
